import Mathlib

/-!
Verification of the CSV-backed record store and analytics of the
Student-Performance-Tracker Flask application.

The Python dictionaries and request handlers are embedded shallowly:

* CSV rows and in-memory records become Lean structures of `String` fields
  (`""` plays the role of a missing/falsy value exactly where the source only
  ever tests truthiness or equality with non-empty literals); fields the source
  reads with `dict.get` and then distinguishes `None` from a present value are
  `Option String`.
* The five process-global mappings become functions `String → Option _` /
  `String → List _` (an absent key is `none` / `[]`, matching the source's
  uniform use of `.get(key, default)`), or association lists where a handler
  iterates `.items()`.
* Python `float` arithmetic is modelled over `ℚ`, and Python's `round`
  (round-half-to-even) over `ℚ` as `pyRound`.
-/

/-- Floor of a rational, computed from its normalised numerator and
positive denominator. -/
def ratFloor (q : ℚ) : ℤ :=
  Int.fdiv q.num (q.den : ℤ)

/-- Python's built-in `round` to zero digits: round half to even. -/
def pyRound (q : ℚ) : ℤ :=
  let n : ℤ := ratFloor q
  let frac : ℚ := q - (n : ℚ)
  if frac < 1/2 then n
  else if 1/2 < frac then n + 1
  else if n % 2 = 0 then n else n + 1

/-- Python's `round(x, 2)`: round half to even at two decimal places. -/
def pyRound2 (q : ℚ) : ℚ :=
  (pyRound (q * 100) : ℚ) / 100

/-- Numeric value of a list of decimal digit characters. -/
def digitsToNat (ds : List Char) : ℕ :=
  ds.foldl (fun acc c => acc * 10 + (c.toNat - 48)) 0

/-- Python's `float()` on the decimal forms that occur in this system:
an optional sign followed by digits, with an optional fractional part.
Returns `none` where `float()` raises `ValueError`. -/
def pyFloat? (s : String) : Option ℚ :=
  let core : List Char → Option ℚ := fun cs =>
    let ip := cs.takeWhile Char.isDigit
    let rest := cs.dropWhile Char.isDigit
    match rest with
    | [] => if ip.isEmpty then none else some (digitsToNat ip : ℚ)
    | '.' :: fp =>
        if fp.all Char.isDigit && (!ip.isEmpty || !fp.isEmpty) then
          some ((digitsToNat ip : ℚ) + (digitsToNat fp : ℚ) / (10 : ℚ) ^ fp.length)
        else none
    | _ => none
  match s.toList with
  | '-' :: rest => (core rest).map (fun q => -q)
  | '+' :: rest => core rest
  | cs => core cs

/-- Python's `str.strip()`: drop whitespace from both ends. -/
def pyStrip (s : String) : String :=
  ⟨((s.toList.dropWhile Char.isWhitespace).reverse.dropWhile
      Char.isWhitespace).reverse⟩

/-- A row of `attendance.csv` / an element of a student's list in
`student_attendance_data`.  All writers in the source populate exactly these
five fields; a missing or `None`-valued field is `""` (the source only ever
tests these fields for truthiness or equality with non-empty literals). -/
structure AttendanceRecord where
  studentId : String
  courseName : String
  date : String
  status : String
  instructor : String
deriving DecidableEq

/-- A row of `grades.csv` / an element of a student's list in
`student_grades_data`.  `score` is `Option String` because the handlers
distinguish a missing score (`g.get('score') is None`) from a present one. -/
structure GradeRecord where
  studentId : String
  courseName : String
  assignmentName : String
  score : Option String
  dateGraded : String
deriving DecidableEq

/-! ### Attendance percentages (claim C1)

Three handlers report an attendance percentage: the student `attendance`
page, the faculty `view_student` page and the faculty `manage_students`
listing. -/

/-- `total_score` of `student_dashboard`: sums every score that is present and
parses as a number; missing or unparseable scores add nothing. -/
def student_dashboard_total_score (grades : List GradeRecord) : ℚ :=
  grades.foldl (fun acc g =>
    match g.score with
    | none => acc
    | some s =>
      match pyFloat? s with
      | none => acc
      | some v => acc + v) 0

/-- `round(overall_grade, 2)` of `student_dashboard`:
`(total_score / len(grades)) if grades else 0` — the denominator is the number
of ALL grade records, not only the parseable ones. -/
def student_dashboard_overall_grade (grades : List GradeRecord) : ℚ :=
  pyRound2 (if grades.length > 0 then
    student_dashboard_total_score grades / (grades.length : ℚ) else 0)

/-- `(total_score, valid_grade_count)` accumulated by the `grades` route:
both are advanced only when the score is present and parses. -/
def grades_route_stats (grades : List GradeRecord) : ℚ × ℕ :=
  grades.foldl (fun acc g =>
    match g.score with
    | none => acc
    | some s =>
      match pyFloat? s with
      | none => acc
      | some v => (acc.1 + v, acc.2 + 1)) (0, 0)

/-- `round(overall_grade, 2)` of the `grades` route:
`(total_score / valid_grade_count) if valid_grade_count > 0 else 0`. -/
def grades_route_overall_grade (grades : List GradeRecord) : ℚ :=
  pyRound2 (if (grades_route_stats grades).2 > 0 then
    (grades_route_stats grades).1 / ((grades_route_stats grades).2 : ℚ) else 0)

/-- `(total_score, valid_grade_count)` of the `manage_students` grade loop:
a record advances both exactly when its score is present and parses. -/
def manage_students_stats (grades : List GradeRecord) : ℚ × ℕ :=
  grades.foldl (fun acc g =>
    match g.score with
    | none => acc
    | some s =>
      match pyFloat? s with
      | none => acc
      | some v => (acc.1 + v, acc.2 + 1)) (0, 0)

/-- `round(overall_grade, 2)` of `manage_students`:
`(total_score / valid_grade_count) if valid_grade_count > 0 else 0`. -/
def manage_students_overall_grade (grades : List GradeRecord) : ℚ :=
  pyRound2 (if (manage_students_stats grades).2 > 0 then
    (manage_students_stats grades).1 / ((manage_students_stats grades).2 : ℚ) else 0)

/-- The scores of a grade list that are present and parse as numbers. -/
def parsedScores (grades : List GradeRecord) : List ℚ :=
  grades.filterMap (fun g => g.score.bind pyFloat?)

/-- The average score as the specification words it: sum of the parseable
scores divided by the count of records with a parseable score (0 when there
are none), rounded to two decimals as every view renders it. -/
def spec_avg_score (grades : List GradeRecord) : ℚ :=
  pyRound2 (if (parsedScores grades).length > 0 then
    (parsedScores grades).sum / ((parsedScores grades).length : ℚ) else 0)

/-! ### The CSV loader (claim C9)

`load_data_from_csv(filepath, data_dict, key_field, is_list)` parses a
header-delimited file into a mapping.  A file is modelled as it presents
itself to the function: missing; unreadable (the open, or the decode of the
header line read by `reader.fieldnames`, raises); fully readable content with
a header row and data rows; or truncated content, where the header row reads
cleanly but a decode/csv error raises while iterating the data rows —
`rows` then holds exactly the rows read before the failure, which the source
has already inserted after `data_dict.clear()` when the exception fires.  An
empty file has header `[]` (`csv.DictReader` reports no fieldnames).
Duplicate header names do not occur in this system's files; header lists here
are the canonical distinct ones. -/

inductive CsvSource where
  | missing
  | unreadable
  | content (header : List String) (rows : List (List String))
  | truncated (header : List String) (rows : List (List String))

/-- The value a `csv.DictReader` row dictionary holds for `field`: the cell at
the field's header position, or `none` (Python `None`, the `restval`) when the
row is shorter than the header. -/
def rowGet (header : List String) (cells : List String) (field : String) : Option String :=
  match header.indexOf? field with
  | none => none
  | some i => cells.get? i

/-- The full row dictionary produced by `csv.DictReader` for one data row. -/
def mkDictRow (header cells : List String) : List (String × Option String) :=
  header.enum.map (fun p => (p.2, cells.get? p.1))

/-- `load_data_from_csv` with `is_list=False` (profiles, logins, courses):
validates the header, clears the mapping, then stores each row under its key,
skipping rows whose key cell is None; later rows overwrite earlier ones.  On
a truncated file the header checks run on the valid header; if they fail the
row loop is never entered (so the mid-file error never fires and the mapping
is untouched), and if they pass the mapping is cleared and holds the rows
read before the exception, which the `except` clause then swallows. -/
def load_data_from_csv_single (src : CsvSource) (keyField : String)
    (dict : String → Option (List (String × Option String))) :
    String → Option (List (String × Option String)) :=
  match src with
  | .missing => dict
  | .unreadable => dict
  | .content header rows =>
      if header = [] then dict
      else if keyField ∉ header then dict
      else
        rows.foldl (fun d cells =>
          match rowGet header cells keyField with
          | none => d
          | some k => Function.update d k (some (mkDictRow header cells)))
          (fun _ => none)
  | .truncated header rows =>
      if header = [] then dict
      else if keyField ∉ header then dict
      else
        rows.foldl (fun d cells =>
          match rowGet header cells keyField with
          | none => d
          | some k => Function.update d k (some (mkDictRow header cells)))
          (fun _ => none)

/-- `load_data_from_csv` with `is_list=True` (grades, attendance): as the
single-record mode, but rows accumulate per key in file order; the truncated
branch mirrors the single-record mode's. -/
def load_data_from_csv_list (src : CsvSource) (keyField : String)
    (dict : String → List (List (String × Option String))) :
    String → List (List (String × Option String)) :=
  match src with
  | .missing => dict
  | .unreadable => dict
  | .content header rows =>
      if header = [] then dict
      else if keyField ∉ header then dict
      else
        rows.foldl (fun d cells =>
          match rowGet header cells keyField with
          | none => d
          | some k => Function.update d k (d k ++ [mkDictRow header cells]))
          (fun _ => [])
  | .truncated header rows =>
      if header = [] then dict
      else if keyField ∉ header then dict
      else
        rows.foldl (fun d cells =>
          match rowGet header cells keyField with
          | none => d
          | some k => Function.update d k (d k ++ [mkDictRow header cells]))
          (fun _ => [])

/-! ### Attendance submission and the attendance CSV (claims C3, C4) -/

/-- The canonical attendance header (`ATTENDANCE_HEADERS`). -/
def attendanceHeaders : List String :=
  ["studentId", "courseName", "date", "status", "instructor"]

/-- The cells an attendance record occupies in a CSV row, in canonical header
order (`csv.DictWriter` with `fieldnames=ATTENDANCE_HEADERS`). -/
def attendanceCells (r : AttendanceRecord) : List String :=
  [r.studentId, r.courseName, r.date, r.status, r.instructor]

/-- Loading `attendance.csv` (a list of rows under the canonical header) with
the list-mode loader keyed on `studentId`: grouping rows by key preserves
their order, so each student's bucket is an order-preserving filter of the
file's rows (`loadList_attendance_agrees` below proves the agreement with
`load_data_from_csv_list`). -/
def loadAttendanceFile (rows : List AttendanceRecord) : String → List AttendanceRecord :=
  fun sid => rows.filter (fun r => r.studentId == sid)

/-- The in-memory half of one `submit_attendance` iteration: the incoming
record is appended to its student's list unless that list already holds a
record with the same `courseName` and `date`. -/
def submit_attendance_memStep (mem : String → List AttendanceRecord)
    (rec : AttendanceRecord) : String → List AttendanceRecord :=
  if (mem rec.studentId).any
      (fun r => r.courseName == rec.courseName && r.date == rec.date) then mem
  else Function.update mem rec.studentId (mem rec.studentId ++ [rec])

/-- `submit_attendance`: every submitted record is appended to the CSV file
first; the in-memory mapping is then updated record by record with the
duplicate check of `submit_attendance_memStep`. -/
def submit_attendance (mem : String → List AttendanceRecord)
    (file : List AttendanceRecord) (newRecords : List AttendanceRecord) :
    (String → List AttendanceRecord) × List AttendanceRecord :=
  (newRecords.foldl submit_attendance_memStep mem, file ++ newRecords)

/-- Modelled from the spec: the source has no grade-submission route (grades
enter only through whole-file CSV uploads), and §4.2 specifies the missing
submission path as append-only with "no suppression — duplicates are
permitted by design".  A grade submission appends the record to its student's
list unconditionally. -/
def submit_grade (mem : String → List GradeRecord) (rec : GradeRecord) :
    String → List GradeRecord :=
  Function.update mem rec.studentId (mem rec.studentId ++ [rec])

/-! ### Courses (claims C3, C8, C10) -/

/-- A Python value held in a course record's field: course fields are strings
as loaded from CSV, except that `update_course` stores the validated
`credits` as an `int`. -/
inductive PyVal where
  | str (s : String)
  | int (n : ℤ)
deriving DecidableEq

/-- `str(v)` as `csv.DictWriter` renders a field value into a cell. -/
def PyVal.toCell : PyVal → String
  | .str s => s
  | .int n => toString n

/-- An entry of `course_data`: the seven canonical course fields.  `credits`
is a `PyVal` because `update_course` replaces it with an integer; a missing
`facultyId` is `""` (the source only tests it for truthiness). -/
structure CourseRec where
  courseCode : String
  courseName : String
  descr : String
  instructor : String
  semester : String
  credits : PyVal
  facultyId : String
deriving DecidableEq

/-- A row of `courses.csv` under the canonical `COURSE_HEADERS`. -/
structure CourseRow where
  courseCode : String
  courseName : String
  descr : String
  instructor : String
  semester : String
  credits : String
  facultyId : String
deriving DecidableEq

/-- The row `csv.DictWriter` writes for a course record during the
`update_course` rewrite of `courses.csv`. -/
def courseRow (rec : CourseRec) : CourseRow :=
  ⟨rec.courseCode, rec.courseName, rec.descr, rec.instructor, rec.semester,
    rec.credits.toCell, rec.facultyId⟩

/-- Loading `courses.csv` with the single-record loader keyed on
`courseCode`: each row is stored under its key, later rows overwriting
earlier ones. -/
def loadCoursesFile (rows : List CourseRow) : String → Option CourseRow :=
  rows.foldl (fun d r => Function.update d r.courseCode (some r)) (fun _ => none)

/-- The `courses.csv` rewrite performed by `update_course`: one row per entry
of `course_data`, in mapping order. -/
def rewriteCoursesFile (courses : List (String × CourseRec)) : List CourseRow :=
  courses.map (fun p => courseRow p.2)

/-- `is_faculty_authorized_for_course`: empty inputs are refused; otherwise
the first `course_data` entry with a non-empty `courseName` equal to
`course_name` decides (its `facultyId` must match when assigned, anything is
allowed when unassigned), and a course with no entry at all (an inferred
course) is allowed by default. -/
def is_faculty_authorized_for_course (courseData : List (String × CourseRec))
    (faculty_id course_name : String) : Bool :=
  if faculty_id == "" || course_name == "" then false
  else
    match courseData.find?
        (fun p => p.2.courseName != "" && p.2.courseName == course_name) with
    | some p => if p.2.facultyId != "" then p.2.facultyId == faculty_id else true
    | none => true

/-! ### Course listings (claim C8) -/

/-- The non-empty course names carried by grade records, then by attendance
records, across a whole mapping (iterated as `.items()`). -/
def recordCourseNames (gradesData : List (String × List GradeRecord))
    (attData : List (String × List AttendanceRecord)) : List String :=
  (gradesData.flatMap (fun p => p.2.filterMap
      (fun g => if g.courseName ≠ "" then some g.courseName else none)))
  ++ (attData.flatMap (fun p => p.2.filterMap
      (fun a => if a.courseName ≠ "" then some a.courseName else none)))

/-- The course names shown by `manage_courses`: every non-empty `courseName`
of a `course_data` entry, followed by the record-inferred names not already
covered by `course_data` (final sorting does not change membership). -/
def manage_courses_names (courseData : List (String × CourseRec))
    (gradesData : List (String × List GradeRecord))
    (attData : List (String × List AttendanceRecord)) : List String :=
  let fromCourses := courseData.filterMap
    (fun p => if p.2.courseName ≠ "" then some p.2.courseName else none)
  fromCourses ++ ((recordCourseNames gradesData attData).dedup.filter
    (fun n => !fromCourses.contains n))

/-- The course dropdown of the `reports` page: the de-duplicated non-empty
course names of grade and attendance records only (sorting does not change
membership). -/
def reports_courses (gradesData : List (String × List GradeRecord))
    (attData : List (String × List AttendanceRecord)) : List String :=
  (recordCourseNames gradesData attData).dedup

/-- The course dropdown of the `take_attendance` page: identical derivation
to the `reports` dropdown. -/
def take_attendance_courses (gradesData : List (String × List GradeRecord))
    (attData : List (String × List AttendanceRecord)) : List String :=
  (recordCourseNames gradesData attData).dedup

/-- Course discovery as the specification words it: a course name exists for
listing purposes if it is in the Course mapping or is referenced by at least
one grade or attendance record. -/
def spec_courseListed (courseData : List (String × CourseRec))
    (gradesData : List (String × List GradeRecord))
    (attData : List (String × List AttendanceRecord)) (n : String) : Prop :=
  (∃ p ∈ courseData, p.2.courseName = n) ∨
  (∃ p ∈ gradesData, ∃ g ∈ p.2, g.courseName = n) ∨
  (∃ p ∈ attData, ∃ a ∈ p.2, a.courseName = n)

/-! ### The student store (claims C5, C6, C7)

`student_profile_data`, `student_login_data`, `student_grades_data` and
`student_attendance_data` as one state, with the operations that mutate
student data. -/

/-- A `student_profile_data` entry.  `password` is `Option String`: `none`
models a profile dictionary without a `password` key (possible only for
profiles loaded from a CSV whose header lacks that column). -/
structure StudentProfile where
  studentId : String
  password : Option String
  firstName : String
  lastName : String
  email : String
  major : String
  program : String
  gpa : String
  enrollmentDate : String
  dob : String
deriving DecidableEq

/-- A `student_login_data` entry. -/
structure StudentLogin where
  password : Option String
  role : String
deriving DecidableEq

/-- The in-memory student store. -/
structure StoreState where
  profiles : String → Option StudentProfile
  logins : String → Option StudentLogin
  gradesMap : String → List GradeRecord
  attMap : String → List AttendanceRecord

/-- The store at process start: every mapping empty. -/
def initState : StoreState :=
  { profiles := fun _ => none, logins := fun _ => none,
    gradesMap := fun _ => [], attMap := fun _ => [] }

/-- The submitted form of `create_student` / `update_student`:
`request.form.get(field)` is `none` when the field is absent. -/
structure StudentForm where
  studentId : Option String
  password : Option String
  confirmPassword : Option String
  firstName : Option String
  lastName : Option String
  email : Option String
  major : Option String
  program : Option String
  gpa : Option String
  enrollmentDate : Option String
  dob : Option String
deriving DecidableEq

/-- Truthiness of `data.get(f, "").strip()`. -/
def formTruthy (x : Option String) : Bool :=
  pyStrip (x.getD "") != ""

/-- The `create_student` validation: every required field (the first seven
`STUDENT_HEADERS` plus `confirmPassword`, minus the defaulted
`major`/`program`/`gpa`) must strip to a non-empty string. -/
def create_valid (f : StudentForm) : Bool :=
  formTruthy f.studentId && formTruthy f.password && formTruthy f.firstName &&
  formTruthy f.lastName && formTruthy f.email && formTruthy f.confirmPassword

/-- `data.get(h) or default`: `None` and `""` both fall back. -/
def getOrDefault (x : Option String) (dflt : String) : String :=
  match x with
  | none => dflt
  | some s => if s = "" then dflt else s

/-- `create_student`: validate, reject mismatched passwords and duplicate ids,
then add the profile record (with `Undeclared`/`0.0` defaults) and the login
entry carrying the same password. -/
def create_student (f : StudentForm) (st : StoreState) : StoreState :=
  if !create_valid f then st
  else if (f.password.getD "") ≠ (f.confirmPassword.getD "") then st
  else
    let sid := pyStrip (f.studentId.getD "")
    if sid = "" then st
    else if (st.profiles sid).isSome then st
    else
      let record : StudentProfile :=
        { studentId := f.studentId.getD ""
          password := some (f.password.getD "")
          firstName := f.firstName.getD ""
          lastName := f.lastName.getD ""
          email := f.email.getD ""
          major := getOrDefault f.major "Undeclared"
          program := getOrDefault f.program "Undeclared"
          gpa := getOrDefault f.gpa "0.0"
          enrollmentDate := f.enrollmentDate.getD ""
          dob := f.dob.getD "" }
      { st with
          profiles := Function.update st.profiles sid (some record)
          logins := Function.update st.logins sid
            (some { password := some (f.password.getD ""), role := "student" }) }

/-- The `update_student` validation: the stripped `firstName`, `lastName`,
`email` (via `pyStrip`) and the raw `dob`, `enrollmentDate` must be non-empty. -/
def update_valid (f : StudentForm) : Bool :=
  pyStrip (f.firstName.getD "") != "" && pyStrip (f.lastName.getD "") != "" &&
  pyStrip (f.email.getD "") != "" && (f.enrollmentDate.getD "") != "" &&
  (f.dob.getD "") != ""

/-- `update_student`: require the student to exist and the form to validate;
a truthy new password must match its confirmation, a blank one falls back to
the stored password; the profile is replaced by the freshly built record and
the login entry is updated (or created) with the same password. -/
def update_student (sid : String) (f : StudentForm) (st : StoreState) : StoreState :=
  match st.profiles sid with
  | none => st
  | some orig =>
    if !update_valid f then st
    else if (f.password.getD "") ≠ "" ∧ f.password ≠ f.confirmPassword then st
    else
      let newPassword : Option String :=
        if (f.password.getD "") ≠ "" then f.password else orig.password
      let record : StudentProfile :=
        { studentId := sid
          password := newPassword
          firstName := pyStrip (f.firstName.getD "")
          lastName := pyStrip (f.lastName.getD "")
          email := pyStrip (f.email.getD "")
          major := pyStrip (f.major.getD "Undeclared")
          program := pyStrip (f.program.getD "Undeclared")
          gpa := pyStrip (f.gpa.getD "0.0")
          enrollmentDate := f.enrollmentDate.getD ""
          dob := f.dob.getD "" }
      let newLogin : StudentLogin :=
        match st.logins sid with
        | some entry => { entry with password := newPassword }
        | none => { password := newPassword, role := "student" }
      { st with
          profiles := Function.update st.profiles sid (some record)
          logins := Function.update st.logins sid (some newLogin) }

/-- The in-memory half of `delete_student`: the id is popped from all four
mappings before any file handling. -/
def delete_student (sid : String) (st : StoreState) : StoreState :=
  { profiles := Function.update st.profiles sid none
    logins := Function.update st.logins sid none
    gradesMap := Function.update st.gradesMap sid []
    attMap := Function.update st.attMap sid [] }

/-- What `delete_student` reports. -/
inductive DeleteOutcome where
  | success
  | fileMissing
deriving DecidableEq

/-- The whole `delete_student` route: memory is mutated unconditionally; only
the flash message depends on whether `students.csv` exists. -/
def delete_student_route (sid : String) (st : StoreState) (csvExists : Bool) :
    StoreState × DeleteOutcome :=
  (delete_student sid st, if csvExists then .success else .fileMissing)

/-- The login entries `upload_student_data` rebuilds from a profile mapping:
an entry exists exactly for the profiles carrying a `password` key. -/
def rebuildLogins (profiles : String → Option StudentProfile) :
    String → Option StudentLogin :=
  fun sid => (profiles sid).bind (fun p =>
    match p.password with
    | some pw => some { password := some pw, role := "student" }
    | none => none)

/-- `upload_student_data` after the file save: the loader either replaces the
profile mapping wholesale (`some newProfiles`) or leaves it untouched
(`none`, a missing/invalid-header/unreadable file); the login mapping is then
rebuilt from the current profiles either way. -/
def upload_student_data (newProfiles : Option (String → Option StudentProfile))
    (st : StoreState) : StoreState :=
  let profiles' := match newProfiles with
    | some p => p
    | none => st.profiles
  { st with profiles := profiles', logins := rebuildLogins profiles' }

/-- The startup login rebuild: an entry exists exactly for the profiles whose
password is truthy (`profile.get('password')`). -/
def startupLogins (profiles : String → Option StudentProfile) :
    String → Option StudentLogin :=
  fun sid => (profiles sid).bind (fun p =>
    match p.password with
    | some pw => if pw ≠ "" then some { password := some pw, role := "student" } else none
    | none => none)

/-- The startup load of `students.csv` followed by the login rebuild. -/
def startup_load (newProfiles : Option (String → Option StudentProfile))
    (st : StoreState) : StoreState :=
  let profiles' := match newProfiles with
    | some p => p
    | none => st.profiles
  { st with profiles := profiles', logins := startupLogins profiles' }

/-- The operations that mutate student data. -/
inductive StoreOp where
  | create (f : StudentForm)
  | update (sid : String) (f : StudentForm)
  | delete (sid : String)
  | upload (newProfiles : Option (String → Option StudentProfile))
  | startup (newProfiles : Option (String → Option StudentProfile))

/-- Apply one operation. -/
def applyOp (st : StoreState) : StoreOp → StoreState
  | .create f => create_student f st
  | .update sid f => update_student sid f st
  | .delete sid => delete_student sid st
  | .upload p => upload_student_data p st
  | .startup p => startup_load p st

/-- Apply a sequence of operations in order. -/
def applyOps (ops : List StoreOp) (st : StoreState) : StoreState :=
  ops.foldl applyOp st

/-- The password-synchronisation invariant: every login entry's password
equals the password field of the corresponding profile. -/
def loginSync (st : StoreState) : Prop :=
  ∀ sid entry, st.logins sid = some entry →
    ∃ prof, st.profiles sid = some prof ∧ prof.password = entry.password

/-! ## Supporting lemmas -/

theorem ratFloor_intCast (n : ℤ) : ratFloor ((n : ℤ) : ℚ) = n := by
  simp [ratFloor, Rat.num_intCast, Rat.den_intCast, Int.fdiv_one]

theorem pyRound_intCast (n : ℤ) : pyRound ((n : ℤ) : ℚ) = n := by
  simp [pyRound, ratFloor_intCast]

theorem pyRound2_intCast (n : ℤ) : pyRound2 ((n : ℤ) : ℚ) = ((n : ℤ) : ℚ) := by
  have h : ((n : ℤ) : ℚ) * 100 = (((n * 100 : ℤ)) : ℚ) := by push_cast; ring
  rw [pyRound2, h, pyRound_intCast]
  push_cast
  ring

theorem grades_stats_aux (grades : List GradeRecord) (a : ℚ) (n : ℕ) :
    grades.foldl (fun acc g =>
      match g.score with
      | none => acc
      | some s =>
        match pyFloat? s with
        | none => acc
        | some v => (acc.1 + v, acc.2 + 1)) (a, n)
    = (a + (parsedScores grades).sum, n + (parsedScores grades).length) := by
  induction grades generalizing a n with
  | nil => simp [parsedScores]
  | cons g gs ih =>
    rw [List.foldl_cons]
    cases hs : g.score with
    | none => simp [parsedScores, List.filterMap_cons, hs, Option.bind, ih a n]
    | some s =>
      cases hv : pyFloat? s with
      | none => simp [parsedScores, List.filterMap_cons, hs, hv, ih a n]
      | some v =>
        simp only [parsedScores, List.filterMap_cons, hs, Option.some_bind, hv,
          List.sum_cons, List.length_cons, ih (a + v) (n + 1), Prod.mk.injEq]
        exact ⟨by ring, by omega⟩

theorem grades_route_stats_eq (grades : List GradeRecord) :
    grades_route_stats grades = ((parsedScores grades).sum, (parsedScores grades).length) := by
  simpa using grades_stats_aux grades 0 0

theorem manage_students_stats_eq (grades : List GradeRecord) :
    manage_students_stats grades = ((parsedScores grades).sum, (parsedScores grades).length) := by
  simpa using grades_stats_aux grades 0 0

theorem dashboard_total_aux (grades : List GradeRecord) (a : ℚ) :
    grades.foldl (fun acc g =>
      match g.score with
      | none => acc
      | some s =>
        match pyFloat? s with
        | none => acc
        | some v => acc + v) a = a + (parsedScores grades).sum := by
  induction grades generalizing a with
  | nil => simp [parsedScores]
  | cons g gs ih =>
    rw [List.foldl_cons]
    cases hs : g.score with
    | none => simp [parsedScores, List.filterMap_cons, hs, Option.bind, ih a]
    | some s =>
      cases hv : pyFloat? s with
      | none => simp [parsedScores, List.filterMap_cons, hs, hv, ih a]
      | some v =>
        simp only [parsedScores, List.filterMap_cons, hs, Option.some_bind, hv,
          List.sum_cons, ih (a + v)]
        ring

theorem parsedScores_length_of_all (grades : List GradeRecord)
    (h : ∀ g ∈ grades, ∃ s, g.score = some s ∧ (pyFloat? s).isSome) :
    (parsedScores grades).length = grades.length := by
  induction grades with
  | nil => simp [parsedScores]
  | cons g gs ih =>
    obtain ⟨s, hs, hv⟩ := h g (List.mem_cons_self g gs)
    obtain ⟨v, hv'⟩ := Option.isSome_iff_exists.mp hv
    have ihh := ih (fun g' hg' => h g' (List.mem_cons_of_mem g hg'))
    rw [parsedScores] at ihh
    simp only [parsedScores, List.filterMap_cons, hs, Option.some_bind, hv',
      List.length_cons, ihh]

/-- C2 (amended): the grades page and the faculty student listing report the
specified average (sum of parseable scores over the count of parseable
records, skipping absent/non-numeric scores); the student dashboard's overall
grade reports it provided every record's score is present and parses —
otherwise the dashboard divides the parseable sum by the total record count,
treating skipped records as zeros in the denominator.  Submitting scores "85"
and "95" yields a reported average of 90 on every view. -/
theorem C2_theorem (grades : List GradeRecord) :
    grades_route_overall_grade grades = spec_avg_score grades ∧
    manage_students_overall_grade grades = spec_avg_score grades ∧
    ((∀ g ∈ grades, ∃ s, g.score = some s ∧ (pyFloat? s).isSome) →
      student_dashboard_overall_grade grades = spec_avg_score grades) ∧
    grades_route_overall_grade
      [⟨"S1", "Math", "A1", some "85", "2024-01-01"⟩,
       ⟨"S1", "Math", "A2", some "95", "2024-01-02"⟩] = 90 ∧
    manage_students_overall_grade
      [⟨"S1", "Math", "A1", some "85", "2024-01-01"⟩,
       ⟨"S1", "Math", "A2", some "95", "2024-01-02"⟩] = 90 ∧
    student_dashboard_overall_grade
      [⟨"S1", "Math", "A1", some "85", "2024-01-01"⟩,
       ⟨"S1", "Math", "A2", some "95", "2024-01-02"⟩] = 90 := by
  have h85 : pyFloat? "85" = some 85 := by decide
  have h95 : pyFloat? "95" = some 95 := by decide
  have hps : parsedScores
      [⟨"S1", "Math", "A1", some "85", "2024-01-01"⟩,
       ⟨"S1", "Math", "A2", some "95", "2024-01-02"⟩] = [85, 95] := by
    simp [parsedScores, h85, h95]
  have hp90 : pyRound2 ((90 : ℚ)) = 90 := by
    have h := pyRound2_intCast 90
    norm_num at h
    exact h
  refine ⟨?_, ?_, ?_, ?_, ?_, ?_⟩
  · rw [grades_route_overall_grade, grades_route_stats_eq, spec_avg_score]
  · rw [manage_students_overall_grade, manage_students_stats_eq, spec_avg_score]
  · intro h
    have ht : student_dashboard_total_score grades = (parsedScores grades).sum := by
      simpa [student_dashboard_total_score] using dashboard_total_aux grades 0
    rw [student_dashboard_overall_grade, spec_avg_score, ht,
      parsedScores_length_of_all grades h]
  · rw [grades_route_overall_grade, grades_route_stats_eq, hps]
    norm_num
    exact hp90
  · rw [manage_students_overall_grade, manage_students_stats_eq, hps]
    norm_num
    exact hp90
  · rw [student_dashboard_overall_grade]
    have ht := dashboard_total_aux
      [⟨"S1", "Math", "A1", some "85", "2024-01-01"⟩,
       ⟨"S1", "Math", "A2", some "95", "2024-01-02"⟩] 0
    rw [hps] at ht
    rw [student_dashboard_total_score, ht]
    norm_num
    exact hp90

/-- C2 witness: `C2_theorem` instantiated at a mixed list whose hypothesis
(every score parses) is discharged concretely. -/
theorem C2_theorem_witness :
    student_dashboard_overall_grade
        [⟨"S1", "Math", "A1", some "85", "2024-01-01"⟩] =
      spec_avg_score [⟨"S1", "Math", "A1", some "85", "2024-01-01"⟩] :=
  ( C2_theorem [⟨"S1", "Math", "A1", some "85", "2024-01-01"⟩]).2.2.1
    (by intro g hg; exact ⟨"85", by simp at hg; simp [hg], by decide⟩)

/-- C2 counterexample: one unparseable score next to one score of 90.  The
claimed formula gives 90, but the student dashboard reports 45: it divides
the parseable sum by the total number of records. -/
theorem C2_counterexample :
    student_dashboard_overall_grade
        [⟨"S1", "Math", "A1", some "abc", "2024-01-01"⟩,
         ⟨"S1", "Math", "A2", some "90", "2024-01-02"⟩] = 45 ∧
    spec_avg_score
        [⟨"S1", "Math", "A1", some "abc", "2024-01-01"⟩,
         ⟨"S1", "Math", "A2", some "90", "2024-01-02"⟩] = 90 ∧
    student_dashboard_overall_grade
        [⟨"S1", "Math", "A1", some "abc", "2024-01-01"⟩,
         ⟨"S1", "Math", "A2", some "90", "2024-01-02"⟩] ≠
      spec_avg_score
        [⟨"S1", "Math", "A1", some "abc", "2024-01-01"⟩,
         ⟨"S1", "Math", "A2", some "90", "2024-01-02"⟩] := by
  have habc : pyFloat? "abc" = none := by decide
  have h90 : pyFloat? "90" = some 90 := by decide
  have hps : parsedScores
      [⟨"S1", "Math", "A1", some "abc", "2024-01-01"⟩,
       ⟨"S1", "Math", "A2", some "90", "2024-01-02"⟩] = [90] := by
    simp [parsedScores, habc, h90]
  have e1 : student_dashboard_overall_grade
      [⟨"S1", "Math", "A1", some "abc", "2024-01-01"⟩,
       ⟨"S1", "Math", "A2", some "90", "2024-01-02"⟩] = 45 := by
    have ht := dashboard_total_aux
      [⟨"S1", "Math", "A1", some "abc", "2024-01-01"⟩,
       ⟨"S1", "Math", "A2", some "90", "2024-01-02"⟩] 0
    rw [hps] at ht
    rw [student_dashboard_overall_grade, student_dashboard_total_score, ht]
    norm_num
    have h := pyRound2_intCast 45
    norm_num at h
    exact h
  have e2 : spec_avg_score
      [⟨"S1", "Math", "A1", some "abc", "2024-01-01"⟩,
       ⟨"S1", "Math", "A2", some "90", "2024-01-02"⟩] = 90 := by
    rw [spec_avg_score, hps]
    norm_num
    have h := pyRound2_intCast 90
    norm_num at h
    exact h
  exact ⟨e1, e2, by rw [e1, e2]; norm_num⟩

/-! ## Claim C10 -/

/-- C10: the faculty-course authorization check refuses empty inputs; for
non-empty inputs it allows a course with no `course_data` entry (inferred),
allows a course whose first matching entry has no facultyId, and otherwise
allows exactly the assigned faculty member — so any logged-in faculty member
passes the `enroll_student` gate for an inferred or unassigned course. -/
theorem C10_theorem (courseData : List (String × CourseRec)) (fid cn : String) :
    (is_faculty_authorized_for_course courseData "" cn = false) ∧
    (is_faculty_authorized_for_course courseData fid "" = false) ∧
    (fid ≠ "" → cn ≠ "" →
      ((∀ p ∈ courseData, p.2.courseName ≠ cn) →
        is_faculty_authorized_for_course courseData fid cn = true) ∧
      (∀ p, courseData.find?
          (fun q => q.2.courseName != "" && q.2.courseName == cn) = some p →
        ((p.2.facultyId = "" →
            is_faculty_authorized_for_course courseData fid cn = true) ∧
         (p.2.facultyId ≠ "" →
            (is_faculty_authorized_for_course courseData fid cn = true ↔
              p.2.facultyId = fid))))) := by
  refine ⟨by simp [is_faculty_authorized_for_course], by simp [is_faculty_authorized_for_course], ?_⟩
  intro hf hc
  have hcond : (fid == "" || cn == "") = false := by simp [hf, hc]
  constructor
  · intro hnone
    have hfind : courseData.find?
        (fun q => q.2.courseName != "" && q.2.courseName == cn) = none := by
      rw [List.find?_eq_none]
      intro p hp
      simp [hnone p hp]
    simp [is_faculty_authorized_for_course, hcond, hfind]
  · intro p hp
    constructor
    · intro hfac
      simp [is_faculty_authorized_for_course, hcond, hp, hfac]
    · intro hfac
      simp [is_faculty_authorized_for_course, hcond, hp, hfac]

/-- C10 witness: the three branches exercised on a one-course mapping with an
assigned faculty member. -/
theorem C10_theorem_witness :
    (is_faculty_authorized_for_course
        [("C1", ⟨"C1", "Algebra", "", "Dr", "F24", PyVal.str "3", "prof_davis"⟩)]
        "" "Algebra" = false) ∧
    (is_faculty_authorized_for_course
        [("C1", ⟨"C1", "Algebra", "", "Dr", "F24", PyVal.str "3", "prof_davis"⟩)]
        "prof_davis" "" = false) ∧
    ("prof_davis" ≠ "" → "Algebra" ≠ "" →
      ((∀ p ∈ [("C1", (⟨"C1", "Algebra", "", "Dr", "F24", PyVal.str "3",
            "prof_davis"⟩ : CourseRec))], p.2.courseName ≠ "Algebra") →
        is_faculty_authorized_for_course
          [("C1", ⟨"C1", "Algebra", "", "Dr", "F24", PyVal.str "3", "prof_davis"⟩)]
          "prof_davis" "Algebra" = true) ∧
      (∀ p, ([("C1", (⟨"C1", "Algebra", "", "Dr", "F24", PyVal.str "3",
            "prof_davis"⟩ : CourseRec))]).find?
          (fun q => q.2.courseName != "" && q.2.courseName == "Algebra") = some p →
        ((p.2.facultyId = "" →
            is_faculty_authorized_for_course
              [("C1", ⟨"C1", "Algebra", "", "Dr", "F24", PyVal.str "3", "prof_davis"⟩)]
              "prof_davis" "Algebra" = true) ∧
         (p.2.facultyId ≠ "" →
            (is_faculty_authorized_for_course
              [("C1", ⟨"C1", "Algebra", "", "Dr", "F24", PyVal.str "3", "prof_davis"⟩)]
              "prof_davis" "Algebra" = true ↔
              p.2.facultyId = "prof_davis"))))) :=
  C10_theorem
    [("C1", ⟨"C1", "Algebra", "", "Dr", "F24", PyVal.str "3", "prof_davis"⟩)]
    "prof_davis" "Algebra"

/-! ## Claim C8 -/

theorem if_name_eq (c n : String) :
    ((if c ≠ "" then some c else none) = some n) ↔ (c = n ∧ n ≠ "") := by
  by_cases h : c = ""
  · subst h
    constructor
    · intro hx; simp at hx
    · rintro ⟨rfl, hne⟩; exact absurd rfl hne
  · rw [if_pos h]
    constructor
    · intro hx
      have hcn : c = n := by injection hx
      exact ⟨hcn, fun hn => h (hcn.trans hn)⟩
    · rintro ⟨rfl, hg⟩; rfl

theorem mem_recordCourseNames (gs : List (String × List GradeRecord))
    (as' : List (String × List AttendanceRecord)) (n : String) :
    n ∈ recordCourseNames gs as' ↔
      (n ≠ "" ∧ ((∃ p ∈ gs, ∃ g ∈ p.2, g.courseName = n) ∨
        (∃ p ∈ as', ∃ a ∈ p.2, a.courseName = n))) := by
  simp only [recordCourseNames, List.mem_append, List.mem_flatMap,
    List.mem_filterMap, if_name_eq]
  constructor
  · rintro (⟨p, hp, g, hg, rfl, hne⟩ | ⟨p, hp, a, ha, rfl, hne⟩)
    · exact ⟨hne, Or.inl ⟨p, hp, g, hg, rfl⟩⟩
    · exact ⟨hne, Or.inr ⟨p, hp, a, ha, rfl⟩⟩
  · rintro ⟨hne, (⟨p, hp, g, hg, rfl⟩ | ⟨p, hp, a, ha, rfl⟩)⟩
    · exact Or.inl ⟨p, hp, g, hg, rfl, hne⟩
    · exact Or.inr ⟨p, hp, a, ha, rfl, hne⟩

/-- C8 (amended): the faculty course-management page lists exactly the
non-empty course names that are in the Course mapping or referenced by a
grade/attendance record, de-duplicated against the mapping's names; the
reports and take-attendance dropdowns list exactly the non-empty referenced
names, ignoring the Course mapping entirely. -/
theorem C8_theorem (cs : List (String × CourseRec))
    (gs : List (String × List GradeRecord))
    (as' : List (String × List AttendanceRecord)) (n : String) :
    (n ∈ manage_courses_names cs gs as' ↔
      (n ≠ "" ∧ ((∃ p ∈ cs, p.2.courseName = n) ∨
        (∃ p ∈ gs, ∃ g ∈ p.2, g.courseName = n) ∨
        (∃ p ∈ as', ∃ a ∈ p.2, a.courseName = n)))) ∧
    (n ∈ reports_courses gs as' ↔
      (n ≠ "" ∧ ((∃ p ∈ gs, ∃ g ∈ p.2, g.courseName = n) ∨
        (∃ p ∈ as', ∃ a ∈ p.2, a.courseName = n)))) ∧
    (n ∈ take_attendance_courses gs as' ↔
      (n ≠ "" ∧ ((∃ p ∈ gs, ∃ g ∈ p.2, g.courseName = n) ∨
        (∃ p ∈ as', ∃ a ∈ p.2, a.courseName = n)))) := by
  have hA : n ∈ cs.filterMap
      (fun p => if p.2.courseName ≠ "" then some p.2.courseName else none) ↔
      (n ≠ "" ∧ ∃ p ∈ cs, p.2.courseName = n) := by
    simp only [List.mem_filterMap, if_name_eq]
    constructor
    · rintro ⟨p, hp, rfl, hne⟩; exact ⟨hne, p, hp, rfl⟩
    · rintro ⟨hne, p, hp, rfl⟩; exact ⟨p, hp, rfl, hne⟩
  have hR := mem_recordCourseNames gs as' n
  refine ⟨?_, ?_, ?_⟩
  · rw [manage_courses_names]
    simp only [List.mem_append, List.mem_filter, List.mem_dedup, hA, hR,
      List.elem_eq_mem, Bool.not_eq_eq_eq_not, Bool.not_true,
      decide_eq_false_iff_not]
    constructor
    · rintro (⟨hne, hcs⟩ | ⟨⟨hne, href⟩, _⟩)
      · exact ⟨hne, Or.inl hcs⟩
      · exact ⟨hne, Or.inr href⟩
    · rintro ⟨hne, (hcs | href)⟩
      · exact Or.inl ⟨hne, hcs⟩
      · by_cases hin : (n ≠ "" ∧ ∃ p ∈ cs, p.2.courseName = n)
        · exact Or.inl hin
        · exact Or.inr ⟨⟨hne, href⟩, hin⟩
  · rw [reports_courses, List.mem_dedup]
    exact hR
  · rw [take_attendance_courses, List.mem_dedup]
    exact hR

/-- C8 witness: `C8_theorem` instantiated on a store with one Course entry
and one referencing grade record. -/
theorem C8_theorem_witness :
    ("Algebra" ∈ manage_courses_names
        [("C1", ⟨"C1", "Algebra", "", "Dr", "F24", PyVal.str "3", ""⟩)]
        [("S1", [⟨"S1", "Algebra", "A1", some "85", "d"⟩])] [] ↔
      ("Algebra" ≠ "" ∧
        ((∃ p ∈ [("C1", (⟨"C1", "Algebra", "", "Dr", "F24", PyVal.str "3",
            ""⟩ : CourseRec))], p.2.courseName = "Algebra") ∨
         (∃ p ∈ [("S1", [(⟨"S1", "Algebra", "A1", some "85", "d"⟩ : GradeRecord)])],
            ∃ g ∈ p.2, g.courseName = "Algebra") ∨
         (∃ p ∈ ([] : List (String × List AttendanceRecord)),
            ∃ a ∈ p.2, a.courseName = "Algebra")))) ∧
    ("Algebra" ∈ reports_courses
        [("S1", [⟨"S1", "Algebra", "A1", some "85", "d"⟩])] [] ↔
      ("Algebra" ≠ "" ∧
        ((∃ p ∈ [("S1", [(⟨"S1", "Algebra", "A1", some "85", "d"⟩ : GradeRecord)])],
            ∃ g ∈ p.2, g.courseName = "Algebra") ∨
         (∃ p ∈ ([] : List (String × List AttendanceRecord)),
            ∃ a ∈ p.2, a.courseName = "Algebra")))) ∧
    ("Algebra" ∈ take_attendance_courses
        [("S1", [⟨"S1", "Algebra", "A1", some "85", "d"⟩])] [] ↔
      ("Algebra" ≠ "" ∧
        ((∃ p ∈ [("S1", [(⟨"S1", "Algebra", "A1", some "85", "d"⟩ : GradeRecord)])],
            ∃ g ∈ p.2, g.courseName = "Algebra") ∨
         (∃ p ∈ ([] : List (String × List AttendanceRecord)),
            ∃ a ∈ p.2, a.courseName = "Algebra")))) :=
  C8_theorem [("C1", ⟨"C1", "Algebra", "", "Dr", "F24", PyVal.str "3", ""⟩)]
    [("S1", [⟨"S1", "Algebra", "A1", some "85", "d"⟩])] [] "Algebra"

/-- C8 counterexample: a course present only in the Course mapping (no grade
or attendance record references it).  The claim requires it to appear in the
reports dropdown; the reports dropdown is built from records alone and omits
it, while `manage_courses` shows it. -/
theorem C8_counterexample :
    spec_courseListed [("C1", ⟨"C1", "Algebra", "", "Dr", "F24", PyVal.str "3", ""⟩)]
      [] [] "Algebra" ∧
    "Algebra" ∈ manage_courses_names
      [("C1", ⟨"C1", "Algebra", "", "Dr", "F24", PyVal.str "3", ""⟩)] [] [] ∧
    "Algebra" ∉ reports_courses [] [] ∧
    "Algebra" ∉ take_attendance_courses [] [] := by
  refine ⟨Or.inl ⟨("C1", ⟨"C1", "Algebra", "", "Dr", "F24", PyVal.str "3", ""⟩),
    List.mem_singleton.mpr rfl, rfl⟩, ?_, ?_, ?_⟩
  · simp [manage_courses_names, recordCourseNames]
  · simp [reports_courses, recordCourseNames]
  · simp [take_attendance_courses, recordCourseNames]

/-! ## Claim C9 -/

/-- C9 (amended): the loader leaves the target mapping exactly as it was for
a missing file, a file whose open or header decode fails, an
empty/headerless file, a header lacking the key field, and a truncated file
whose valid header fails validation (the row loop is never entered); when the
header validates, the result is independent of the mapping's prior contents
(the mapping is cleared only after validation) — for a fully read file and
equally for a truncated one, whose net effect is the cleared mapping
repopulated with the rows read before the mid-file failure, not the prior
contents.  All of this in both single-record and list-of-records modes. -/
theorem C9_theorem (keyField : String)
    (dictS : String → Option (List (String × Option String)))
    (dictL : String → List (List (String × Option String))) :
    (load_data_from_csv_single .missing keyField dictS = dictS) ∧
    (load_data_from_csv_single .unreadable keyField dictS = dictS) ∧
    (∀ rows, load_data_from_csv_single (.content [] rows) keyField dictS = dictS) ∧
    (∀ header rows, keyField ∉ header →
      load_data_from_csv_single (.content header rows) keyField dictS = dictS) ∧
    (∀ header rows, header ≠ [] → keyField ∈ header →
      load_data_from_csv_single (.content header rows) keyField dictS =
        load_data_from_csv_single (.content header rows) keyField (fun _ => none)) ∧
    (∀ rows, load_data_from_csv_single (.truncated [] rows) keyField dictS = dictS) ∧
    (∀ header rows, keyField ∉ header →
      load_data_from_csv_single (.truncated header rows) keyField dictS = dictS) ∧
    (∀ header rows, header ≠ [] → keyField ∈ header →
      load_data_from_csv_single (.truncated header rows) keyField dictS =
        load_data_from_csv_single (.content header rows) keyField (fun _ => none)) ∧
    (load_data_from_csv_list .missing keyField dictL = dictL) ∧
    (load_data_from_csv_list .unreadable keyField dictL = dictL) ∧
    (∀ rows, load_data_from_csv_list (.content [] rows) keyField dictL = dictL) ∧
    (∀ header rows, keyField ∉ header →
      load_data_from_csv_list (.content header rows) keyField dictL = dictL) ∧
    (∀ header rows, header ≠ [] → keyField ∈ header →
      load_data_from_csv_list (.content header rows) keyField dictL =
        load_data_from_csv_list (.content header rows) keyField (fun _ => [])) ∧
    (∀ rows, load_data_from_csv_list (.truncated [] rows) keyField dictL = dictL) ∧
    (∀ header rows, keyField ∉ header →
      load_data_from_csv_list (.truncated header rows) keyField dictL = dictL) ∧
    (∀ header rows, header ≠ [] → keyField ∈ header →
      load_data_from_csv_list (.truncated header rows) keyField dictL =
        load_data_from_csv_list (.content header rows) keyField (fun _ => [])) := by
  refine ⟨rfl, rfl, ?_, ?_, ?_, ?_, ?_, ?_, rfl, rfl, ?_, ?_, ?_, ?_, ?_, ?_⟩
  · intro rows
    simp [load_data_from_csv_single]
  · intro header rows hkey
    rw [load_data_from_csv_single]
    by_cases hh : header = []
    · rw [if_pos hh]
    · rw [if_neg hh, if_pos hkey]
  · intro header rows hh hkey
    rw [load_data_from_csv_single, load_data_from_csv_single,
      if_neg hh, if_neg hh, if_neg (not_not_intro hkey), if_neg (not_not_intro hkey)]
  · intro rows
    simp [load_data_from_csv_single]
  · intro header rows hkey
    rw [load_data_from_csv_single]
    by_cases hh : header = []
    · rw [if_pos hh]
    · rw [if_neg hh, if_pos hkey]
  · intro header rows hh hkey
    rw [load_data_from_csv_single, load_data_from_csv_single,
      if_neg hh, if_neg hh, if_neg (not_not_intro hkey), if_neg (not_not_intro hkey)]
  · intro rows
    simp [load_data_from_csv_list]
  · intro header rows hkey
    rw [load_data_from_csv_list]
    by_cases hh : header = []
    · rw [if_pos hh]
    · rw [if_neg hh, if_pos hkey]
  · intro header rows hh hkey
    rw [load_data_from_csv_list, load_data_from_csv_list,
      if_neg hh, if_neg hh, if_neg (not_not_intro hkey), if_neg (not_not_intro hkey)]
  · intro rows
    simp [load_data_from_csv_list]
  · intro header rows hkey
    rw [load_data_from_csv_list]
    by_cases hh : header = []
    · rw [if_pos hh]
    · rw [if_neg hh, if_pos hkey]
  · intro header rows hh hkey
    rw [load_data_from_csv_list, load_data_from_csv_list,
      if_neg hh, if_neg hh, if_neg (not_not_intro hkey), if_neg (not_not_intro hkey)]

/-- C9 witness: the loader applied to a one-entry prior mapping, for a missing
file, a key-field-free header, a validating full read, and a validating
truncated read. -/
theorem C9_theorem_witness :
    (load_data_from_csv_single .missing "studentId"
        (fun _ => some [("studentId", some "S1")]) =
      (fun _ => some [("studentId", some "S1")])) ∧
    (load_data_from_csv_single (.content ["name"] [["x"]]) "studentId"
        (fun _ => some [("studentId", some "S1")]) =
      (fun _ => some [("studentId", some "S1")])) ∧
    (load_data_from_csv_single (.content ["studentId"] [["S2"]]) "studentId"
        (fun _ => some [("studentId", some "S1")]) =
      load_data_from_csv_single (.content ["studentId"] [["S2"]]) "studentId"
        (fun _ => none)) ∧
    (load_data_from_csv_single (.truncated ["name"] [["x"]]) "studentId"
        (fun _ => some [("studentId", some "S1")]) =
      (fun _ => some [("studentId", some "S1")])) ∧
    (load_data_from_csv_single (.truncated ["studentId"] [["S2"]]) "studentId"
        (fun _ => some [("studentId", some "S1")]) =
      load_data_from_csv_single (.content ["studentId"] [["S2"]]) "studentId"
        (fun _ => none)) := by
  have h := C9_theorem "studentId" (fun _ => some [("studentId", some "S1")])
    (fun _ => [])
  exact ⟨h.1, h.2.2.2.1 ["name"] [["x"]] (by decide),
    h.2.2.2.2.1 ["studentId"] [["S2"]] (by decide) (by decide),
    h.2.2.2.2.2.2.1 ["name"] [["x"]] (by decide),
    h.2.2.2.2.2.2.2.1 ["studentId"] [["S2"]] (by decide) (by decide)⟩

/-- C9 counterexample: a malformed file whose header reads cleanly but whose
data rows fail to decode mid-iteration (a truncated file).  The loader has
already cleared the mapping and inserted the row read before the failure when
the exception is caught, so the mapping is not left as it was: the prior
entry at key S9 is gone and an entry at key S1 has appeared. -/
theorem C9_counterexample :
    (load_data_from_csv_single (.truncated ["studentId"] [["S1"]]) "studentId"
        (fun k => if k = "S9" then some [("studentId", some "S9")] else none)
        "S9" = none) ∧
    ((fun k => if k = "S9" then some [("studentId", some "S9")] else none)
        "S9" = some [("studentId", some "S9")]) ∧
    (load_data_from_csv_single (.truncated ["studentId"] [["S1"]]) "studentId"
        (fun k => if k = "S9" then some [("studentId", some "S9")] else none)
        "S1" = some [("studentId", some "S1")]) ∧
    (load_data_from_csv_single (.truncated ["studentId"] [["S1"]]) "studentId"
        (fun k => if k = "S9" then some [("studentId", some "S9")] else none)
      ≠ (fun k => if k = "S9" then some [("studentId", some "S9")] else none)) := by
  have e1 : load_data_from_csv_single (.truncated ["studentId"] [["S1"]])
      "studentId"
      (fun k => if k = "S9" then some [("studentId", some "S9")] else none)
      "S9" = none := by decide
  refine ⟨e1, rfl, by decide, fun h => ?_⟩
  have h9 := congrFun h "S9"
  rw [e1] at h9
  simp at h9

/-! ## Claim C7 -/

/-- C7: after `delete_student` returns, the id is absent from all four
mappings, and the in-memory outcome does not depend on whether `students.csv`
exists (a missing file only changes the flash message, not the deletion). -/
theorem C7_theorem (sid : String) (st : StoreState) (csvExists : Bool) :
    ((delete_student_route sid st csvExists).1.profiles sid = none) ∧
    ((delete_student_route sid st csvExists).1.logins sid = none) ∧
    ((delete_student_route sid st csvExists).1.gradesMap sid = []) ∧
    ((delete_student_route sid st csvExists).1.attMap sid = []) ∧
    ((delete_student_route sid st csvExists).1 = delete_student sid st) := by
  refine ⟨?_, ?_, ?_, ?_, rfl⟩ <;>
    simp [delete_student_route, delete_student]

/-! ## Claim C6 -/

/-- C6: updating an existing student with a blank (absent or empty) password
field keeps the stored password: the new profile carries the prior password,
the login entry carries the prior password, and every other stored field is
the submitted value (with the source's defaults for the optional fields). -/
theorem C6_theorem (sid : String) (f : StudentForm) (st : StoreState)
    (orig : StudentProfile)
    (horig : st.profiles sid = some orig)
    (hblank : f.password = none ∨ f.password = some "")
    (hvalid : update_valid f = true) :
    (∃ prof, (update_student sid f st).profiles sid = some prof ∧
      prof.password = orig.password ∧
      prof.firstName = pyStrip (f.firstName.getD "") ∧
      prof.lastName = pyStrip (f.lastName.getD "") ∧
      prof.email = pyStrip (f.email.getD "") ∧
      prof.major = pyStrip (f.major.getD "Undeclared") ∧
      prof.program = pyStrip (f.program.getD "Undeclared") ∧
      prof.gpa = pyStrip (f.gpa.getD "0.0") ∧
      prof.enrollmentDate = f.enrollmentDate.getD "" ∧
      prof.dob = f.dob.getD "" ∧
      prof.studentId = sid) ∧
    (∃ entry, (update_student sid f st).logins sid = some entry ∧
      entry.password = orig.password) := by
  have hpw : f.password.getD "" = "" := by
    rcases hblank with h | h <;> rw [h] <;> rfl
  have hcond : ¬((f.password.getD "") ≠ "" ∧ f.password ≠ f.confirmPassword) := by
    rw [hpw]; simp
  unfold update_student
  rw [horig]
  simp only [hvalid, Bool.not_true, Bool.false_eq_true, if_false, hpw, ne_eq,
    not_true_eq_false, false_and, if_false]
  constructor
  · exact ⟨_, Function.update_same _ _ _, rfl, rfl, rfl, rfl, rfl, rfl, rfl,
      rfl, rfl, rfl⟩
  · cases hl : st.logins sid with
    | none => exact ⟨_, Function.update_same _ _ _, rfl⟩
    | some entry => exact ⟨_, Function.update_same _ _ _, rfl⟩

/-- C6 witness: a concrete blank-password update over a one-student store. -/
theorem C6_theorem_witness :
    (∃ prof, (update_student "S1"
        ⟨none, none, none, some "New", some "Name", some "n@e", none, none,
          none, some "2024-01-01", some "2000-01-01"⟩
        { profiles := fun s => if s = "S1" then
            some ⟨"S1", some "pw", "A", "B", "e", "M", "P", "4.0", "2024", "2000"⟩
          else none
          logins := fun _ => none
          gradesMap := fun _ => []
          attMap := fun _ => [] }).profiles "S1" = some prof ∧
      prof.password = (⟨"S1", some "pw", "A", "B", "e", "M", "P", "4.0", "2024",
        "2000"⟩ : StudentProfile).password ∧
      prof.firstName = pyStrip ((some "New").getD "") ∧
      prof.lastName = pyStrip ((some "Name").getD "") ∧
      prof.email = pyStrip ((some "n@e").getD "") ∧
      prof.major = pyStrip ((none : Option String).getD "Undeclared") ∧
      prof.program = pyStrip ((none : Option String).getD "Undeclared") ∧
      prof.gpa = pyStrip ((none : Option String).getD "0.0") ∧
      prof.enrollmentDate = (some "2024-01-01").getD "" ∧
      prof.dob = (some "2000-01-01").getD "" ∧
      prof.studentId = "S1") ∧
    (∃ entry, (update_student "S1"
        ⟨none, none, none, some "New", some "Name", some "n@e", none, none,
          none, some "2024-01-01", some "2000-01-01"⟩
        { profiles := fun s => if s = "S1" then
            some ⟨"S1", some "pw", "A", "B", "e", "M", "P", "4.0", "2024", "2000"⟩
          else none
          logins := fun _ => none
          gradesMap := fun _ => []
          attMap := fun _ => [] }).logins "S1" = some entry ∧
      entry.password = (⟨"S1", some "pw", "A", "B", "e", "M", "P", "4.0", "2024",
        "2000"⟩ : StudentProfile).password) :=
  C6_theorem "S1" _ _ _ (by simp) (Or.inl rfl) (by decide)

/-! ## Claim C4 -/

/-- C4: submitting two attendance records with the same studentId, courseName
and date into a store holding no prior record for that (courseName, date)
leaves exactly one stored record for the pair in that student's list; grade
submissions are never suppressed — every submission appends its record
(spec-modelled: the source has no grade-submission route). -/
theorem C4_theorem (mem : String → List AttendanceRecord)
    (r1 r2 : AttendanceRecord)
    (hsid : r2.studentId = r1.studentId)
    (hcn : r2.courseName = r1.courseName)
    (hdt : r2.date = r1.date)
    (hfresh : ∀ r ∈ mem r1.studentId,
      ¬(r.courseName = r1.courseName ∧ r.date = r1.date)) :
    ((submit_attendance_memStep (submit_attendance_memStep mem r1) r2)
        r1.studentId).countP
      (fun r => r.courseName == r1.courseName && r.date == r1.date) = 1 ∧
    (∀ (gmem : String → List GradeRecord) (g : GradeRecord),
      (submit_grade gmem g) g.studentId = gmem g.studentId ++ [g]) := by
  have hany1 : ((mem r1.studentId).any
      (fun r => r.courseName == r1.courseName && r.date == r1.date)) = false := by
    rw [List.any_eq_false]
    intro r hr
    have := hfresh r hr
    simp only [Bool.and_eq_true, beq_iff_eq]
    exact fun hx => this ⟨hx.1, hx.2⟩
  have hstep1 : submit_attendance_memStep mem r1 =
      Function.update mem r1.studentId (mem r1.studentId ++ [r1]) := by
    rw [submit_attendance_memStep, if_neg]
    simp [hany1]
  have hmem1 : (submit_attendance_memStep mem r1) r2.studentId =
      mem r1.studentId ++ [r1] := by
    rw [hstep1, hsid, Function.update_same]
  have hany2 : (((submit_attendance_memStep mem r1) r2.studentId).any
      (fun r => r.courseName == r2.courseName && r.date == r2.date)) = true := by
    rw [hmem1, List.any_eq_true]
    exact ⟨r1, List.mem_append_right _ (List.mem_singleton.mpr rfl),
      by simp [hcn, hdt]⟩
  have hstep2 : submit_attendance_memStep (submit_attendance_memStep mem r1) r2 =
      submit_attendance_memStep mem r1 := by
    rw [submit_attendance_memStep, if_pos]
    simpa using hany2
  rw [hstep2, hstep1, Function.update_same]
  constructor
  · rw [List.countP_append]
    have hzero : (mem r1.studentId).countP
        (fun r => r.courseName == r1.courseName && r.date == r1.date) = 0 := by
      rw [List.countP_eq_zero]
      intro r hr
      have := hfresh r hr
      simp only [Bool.and_eq_true, beq_iff_eq]
      exact fun hx => this ⟨hx.1, hx.2⟩
    rw [hzero]
    simp [List.countP_cons]
  · intro gmem g
    rw [submit_grade, Function.update_same]

/-- C4 witness: the same (studentId, courseName, date) submitted twice into an
empty store, and a grade appended twice. -/
theorem C4_theorem_witness :
    ((submit_attendance_memStep
        (submit_attendance_memStep (fun _ => [])
          ⟨"S1", "Math", "2024-01-01", "Present", "I"⟩)
        ⟨"S1", "Math", "2024-01-01", "Absent", "I"⟩)
        (AttendanceRecord.studentId ⟨"S1", "Math", "2024-01-01", "Present", "I"⟩)).countP
      (fun r => r.courseName ==
          (AttendanceRecord.courseName ⟨"S1", "Math", "2024-01-01", "Present", "I"⟩) &&
        r.date ==
          (AttendanceRecord.date ⟨"S1", "Math", "2024-01-01", "Present", "I"⟩)) = 1 ∧
    (∀ (gmem : String → List GradeRecord) (g : GradeRecord),
      (submit_grade gmem g) g.studentId = gmem g.studentId ++ [g]) :=
  C4_theorem (fun _ => []) ⟨"S1", "Math", "2024-01-01", "Present", "I"⟩
    ⟨"S1", "Math", "2024-01-01", "Absent", "I"⟩ rfl rfl rfl
    (by intro r hr; simp at hr)

/-! ## Claim C3 -/

theorem loadAttendanceFile_append (xs ys : List AttendanceRecord) (sid : String) :
    loadAttendanceFile (xs ++ ys) sid =
      loadAttendanceFile xs sid ++ loadAttendanceFile ys sid := by
  simp [loadAttendanceFile, List.filter_append]

/-- The list-mode loader on a canonical attendance file agrees with
`loadAttendanceFile`: grouping by the key column is an order-preserving
filter. -/
theorem loadList_attendance_agrees (rows : List AttendanceRecord) (sid : String) :
    load_data_from_csv_list
        (.content attendanceHeaders (rows.map attendanceCells)) "studentId"
        (fun _ => []) sid
      = (loadAttendanceFile rows sid).map
          (fun r => mkDictRow attendanceHeaders (attendanceCells r)) := by
  have key : ∀ r : AttendanceRecord,
      rowGet attendanceHeaders (attendanceCells r) "studentId" = some r.studentId := by
    intro r; rfl
  rw [load_data_from_csv_list]
  rw [if_neg (by simp [attendanceHeaders]), if_neg (by simp [attendanceHeaders])]
  suffices h : ∀ (d : String → List (List (String × Option String))),
      ((rows.map attendanceCells).foldl (fun d cells =>
        match rowGet attendanceHeaders cells "studentId" with
        | none => d
        | some k => Function.update d k (d k ++ [mkDictRow attendanceHeaders cells]))
        d) sid
      = d sid ++ (loadAttendanceFile rows sid).map
          (fun r => mkDictRow attendanceHeaders (attendanceCells r)) by
    simpa using h (fun _ => [])
  induction rows with
  | nil => intro d; simp [loadAttendanceFile]
  | cons r rs ih =>
    intro d
    rw [List.map_cons, List.foldl_cons, key r]
    rw [ih (Function.update d r.studentId
      (d r.studentId ++ [mkDictRow attendanceHeaders (attendanceCells r)]))]
    simp only [loadAttendanceFile]
    rw [List.filter_cons]
    by_cases hs : r.studentId = sid
    · subst hs
      simp [Function.update_same, loadAttendanceFile]
    · have : (r.studentId == sid) = false := beq_eq_false_iff_ne.mpr hs
      rw [this]
      simp only [Bool.false_eq_true, if_false]
      rw [Function.update_noteq (fun h => hs h.symm)]

theorem submit_mem_foldl (newRecords : List AttendanceRecord) (c d : String) :
    ∀ (mem : String → List AttendanceRecord),
    (∀ r ∈ newRecords, r.courseName = c ∧ r.date = d) →
    newRecords.Pairwise (fun a b => a.studentId ≠ b.studentId) →
    (∀ r ∈ newRecords, ∀ r0 ∈ mem r.studentId,
      ¬(r0.courseName = c ∧ r0.date = d)) →
    ∀ sid, (newRecords.foldl submit_attendance_memStep mem) sid
        = mem sid ++ newRecords.filter (fun r => r.studentId == sid) := by
  induction newRecords with
  | nil => intro mem _ _ _ sid; simp
  | cons r rs ih =>
    intro mem hcd hpw hfresh sid
    obtain ⟨hrc, hrd⟩ := hcd r (List.mem_cons_self r rs)
    have hany : ((mem r.studentId).any
        (fun r0 => r0.courseName == r.courseName && r0.date == r.date)) = false := by
      rw [List.any_eq_false]
      intro r0 hr0
      have := hfresh r (List.mem_cons_self r rs) r0 hr0
      simp only [Bool.and_eq_true, beq_iff_eq]
      exact fun hx => this ⟨hrc ▸ hx.1, hrd ▸ hx.2⟩
    have hstep : submit_attendance_memStep mem r =
        Function.update mem r.studentId (mem r.studentId ++ [r]) := by
      rw [submit_attendance_memStep, if_neg]
      simp [hany]
    rw [List.foldl_cons, hstep]
    have hdist := (List.pairwise_cons.mp hpw).1
    have hfresh' : ∀ r' ∈ rs, ∀ r0 ∈ (Function.update mem r.studentId
        (mem r.studentId ++ [r])) r'.studentId, ¬(r0.courseName = c ∧ r0.date = d) := by
      intro r' hr' r0 hr0
      rw [Function.update_noteq (fun h => hdist r' hr' h.symm)] at hr0
      exact hfresh r' (List.mem_cons_of_mem r hr') r0 hr0
    rw [ih _ (fun r' hr' => hcd r' (List.mem_cons_of_mem r hr'))
      (List.pairwise_cons.mp hpw).2 hfresh' sid]
    rw [List.filter_cons]
    by_cases hs : r.studentId = sid
    · subst hs
      rw [Function.update_same]
      simp
    · have hb : (r.studentId == sid) = false := beq_eq_false_iff_ne.mpr hs
      rw [hb]
      simp only [Bool.false_eq_true, if_false]
      rw [Function.update_noteq (fun h => hs h.symm)]

theorem lookup_none_of (l : List (String × CourseRec)) (code : String)
    (h : ∀ q ∈ l, q.1 ≠ code) : l.lookup code = none := by
  induction l with
  | nil => rfl
  | cons q qs ih =>
    obtain ⟨k, v⟩ := q
    have hk : (code == k) = false :=
      beq_eq_false_iff_ne.mpr (fun hx => h (k, v) (List.mem_cons_self _ _) hx.symm)
    simp only [List.lookup, hk]
    exact ih (fun q hq => h q (List.mem_cons_of_mem _ hq))

theorem loadCourses_aux (courses : List (String × CourseRec)) :
    ∀ (init : String → Option CourseRow) (code : String),
    (∀ p ∈ courses, p.2.courseCode = p.1) →
    courses.Pairwise (fun a b => a.1 ≠ b.1) →
    (rewriteCoursesFile courses).foldl
        (fun (dd : String → Option CourseRow) (r : CourseRow) =>
          Function.update dd r.courseCode (some r)) init code
      = (match courses.lookup code with
         | some rec => some (courseRow rec)
         | none => init code) := by
  induction courses with
  | nil => intro init code _ _; rfl
  | cons p ps ih =>
    intro init code hkeys hpw
    obtain ⟨k, rec⟩ := p
    have hk : rec.courseCode = k := hkeys (k, rec) (List.mem_cons_self _ _)
    have hcc : (courseRow rec).courseCode = k := hk
    rw [rewriteCoursesFile, List.map_cons, List.foldl_cons]
    have ihh := ih (Function.update init (courseRow rec).courseCode
        (some (courseRow rec))) code
      (fun q hq => hkeys q (List.mem_cons_of_mem _ hq))
      (List.pairwise_cons.mp hpw).2
    rw [rewriteCoursesFile] at ihh
    rw [ihh]
    by_cases hc : code = k
    · subst hc
      have hnone : ps.lookup code = none := lookup_none_of ps code
        (fun q hq hx =>
          (List.pairwise_cons.mp hpw).1 q hq (hx.symm))
      rw [hnone]
      have hbeq : (code == code) = true := beq_self_eq_true code
      simp only [List.lookup, hbeq, hnone]
      rw [hcc]
      exact Function.update_same _ _ _
    · have hbeq : (code == k) = false := beq_eq_false_iff_ne.mpr hc
      simp only [List.lookup, hbeq]
      cases hpl : ps.lookup code with
      | some r => rfl
      | none =>
        rw [hcc, Function.update_noteq hc]

/-- C3 (amended): after an attendance submission none of whose records shares
(courseName, date) with an existing record of its student — the route
guarantees all submitted records share one course and date and have distinct
student ids — reloading the appended CSV reconstructs the in-memory mapping
exactly, provided the file mirrored the mapping beforehand; and reloading the
`courses.csv` rewrite reconstructs, per key, the in-memory course record with
its field values rendered to strings (`update_course` holds `credits` as an
integer in memory, which reloads as its decimal string).  A duplicate
attendance submission breaks the stored-file equality: the row is appended to
the file but suppressed in memory (see the counterexample). -/
theorem C3_theorem
    (mem : String → List AttendanceRecord) (file : List AttendanceRecord)
    (newRecords : List AttendanceRecord) (c d : String)
    (courses : List (String × CourseRec))
    (hsync : ∀ sid, loadAttendanceFile file sid = mem sid)
    (hcd : ∀ r ∈ newRecords, r.courseName = c ∧ r.date = d)
    (hpw : newRecords.Pairwise (fun a b => a.studentId ≠ b.studentId))
    (hfresh : ∀ r ∈ newRecords, ∀ r0 ∈ mem r.studentId,
      ¬(r0.courseName = c ∧ r0.date = d))
    (hkeys : ∀ p ∈ courses, p.2.courseCode = p.1)
    (hdk : courses.Pairwise (fun a b => a.1 ≠ b.1)) :
    (∀ sid, loadAttendanceFile (submit_attendance mem file newRecords).2 sid
        = (submit_attendance mem file newRecords).1 sid) ∧
    (∀ code, loadCoursesFile (rewriteCoursesFile courses) code
        = (courses.lookup code).map courseRow) := by
  constructor
  · intro sid
    show loadAttendanceFile (file ++ newRecords) sid
        = (newRecords.foldl submit_attendance_memStep mem) sid
    rw [loadAttendanceFile_append, hsync sid,
      submit_mem_foldl newRecords c d mem hcd hpw hfresh sid]
    rfl
  · intro code
    rw [loadCoursesFile, loadCourses_aux courses (fun _ => none) code hkeys hdk]
    cases courses.lookup code <;> rfl

/-- C3 witness: one fresh record submitted into an empty store, and a
two-course rewrite (one updated record with integer credits). -/
theorem C3_theorem_witness :
    (∀ sid, loadAttendanceFile
        (submit_attendance (fun _ => []) []
          [⟨"S1", "Math", "2024-01-01", "Present", "I"⟩]).2 sid
      = (submit_attendance (fun _ => []) []
          [⟨"S1", "Math", "2024-01-01", "Present", "I"⟩]).1 sid) ∧
    (∀ code, loadCoursesFile (rewriteCoursesFile
        [("C1", ⟨"C1", "Algebra", "", "Dr", "F24", PyVal.int 3, "prof_davis"⟩),
         ("C2", ⟨"C2", "Logic", "", "Dr", "F24", PyVal.str "4", ""⟩)]) code
      = (([("C1", ⟨"C1", "Algebra", "", "Dr", "F24", PyVal.int 3, "prof_davis"⟩),
          ("C2", ⟨"C2", "Logic", "", "Dr", "F24", PyVal.str "4", ""⟩)] :
            List (String × CourseRec)).lookup code).map courseRow) :=
  C3_theorem (fun _ => []) [] [⟨"S1", "Math", "2024-01-01", "Present", "I"⟩]
    "Math" "2024-01-01"
    [("C1", ⟨"C1", "Algebra", "", "Dr", "F24", PyVal.int 3, "prof_davis"⟩),
     ("C2", ⟨"C2", "Logic", "", "Dr", "F24", PyVal.str "4", ""⟩)]
    (fun _ => rfl)
    (by intro r hr; simp at hr; simp [hr])
    (by simp)
    (by intro r hr r0 hr0; simp at hr0)
    (by intro p hp; simp at hp; rcases hp with h | h <;> simp [h])
    (by simp)

/-- C3 counterexample: submitting a record whose (studentId, courseName,
date) already exists appends the row to the CSV but suppresses it in memory,
so reloading the file no longer reconstructs the in-memory mapping. -/
theorem C3_counterexample :
    loadAttendanceFile
        (submit_attendance
          (fun sid => if sid = "S1"
            then [⟨"S1", "Math", "2024-01-01", "Present", "I"⟩] else [])
          [⟨"S1", "Math", "2024-01-01", "Present", "I"⟩]
          [⟨"S1", "Math", "2024-01-01", "Absent", "I"⟩]).2 "S1"
      ≠ (submit_attendance
          (fun sid => if sid = "S1"
            then [⟨"S1", "Math", "2024-01-01", "Present", "I"⟩] else [])
          [⟨"S1", "Math", "2024-01-01", "Present", "I"⟩]
          [⟨"S1", "Math", "2024-01-01", "Absent", "I"⟩]).1 "S1" := by
  decide

/-! ## Claim C5 -/

theorem loginSync_create (f : StudentForm) (st : StoreState) (h : loginSync st) :
    loginSync (create_student f st) := by
  unfold create_student
  cases hv : create_valid f with
  | false => exact h
  | true =>
    simp only [hv, Bool.not_true, Bool.false_eq_true, if_false]
    by_cases hc : (f.password.getD "") ≠ (f.confirmPassword.getD "")
    · rw [if_pos hc]; exact h
    · rw [if_neg hc]
      by_cases hsid : pyStrip (f.studentId.getD "") = ""
      · rw [if_pos hsid]; exact h
      · rw [if_neg hsid]
        by_cases hdup : (st.profiles (pyStrip (f.studentId.getD ""))).isSome
        · rw [if_pos hdup]; exact h
        · rw [if_neg hdup]
          intro sid0 entry hentry
          dsimp only at hentry ⊢
          by_cases hs : sid0 = pyStrip (f.studentId.getD "")
          · subst hs
            rw [Function.update_same] at hentry
            injection hentry with hx
            subst hx
            exact ⟨_, Function.update_same _ _ _, rfl⟩
          · rw [Function.update_noteq hs] at hentry
            obtain ⟨prof, hp, hpw⟩ := h sid0 entry hentry
            exact ⟨prof, by rw [Function.update_noteq hs]; exact hp, hpw⟩

theorem loginSync_update (sid : String) (f : StudentForm) (st : StoreState)
    (h : loginSync st) : loginSync (update_student sid f st) := by
  unfold update_student
  cases ho : st.profiles sid with
  | none => exact h
  | some orig =>
    cases hv : update_valid f with
    | false => exact h
    | true =>
      simp only [hv, Bool.not_true, Bool.false_eq_true, if_false]
      by_cases hc : (f.password.getD "") ≠ "" ∧ f.password ≠ f.confirmPassword
      · rw [if_pos hc]; exact h
      · rw [if_neg hc]
        cases hl : st.logins sid with
        | none =>
          intro sid0 entry hentry
          dsimp only at hentry ⊢
          by_cases hs : sid0 = sid
          · subst hs
            rw [Function.update_same] at hentry
            injection hentry with hx
            subst hx
            exact ⟨_, Function.update_same _ _ _, rfl⟩
          · rw [Function.update_noteq hs] at hentry
            obtain ⟨prof, hp, hpw⟩ := h sid0 entry hentry
            exact ⟨prof, by rw [Function.update_noteq hs]; exact hp, hpw⟩
        | some e =>
          intro sid0 entry hentry
          dsimp only at hentry ⊢
          by_cases hs : sid0 = sid
          · subst hs
            rw [Function.update_same] at hentry
            injection hentry with hx
            subst hx
            exact ⟨_, Function.update_same _ _ _, rfl⟩
          · rw [Function.update_noteq hs] at hentry
            obtain ⟨prof, hp, hpw⟩ := h sid0 entry hentry
            exact ⟨prof, by rw [Function.update_noteq hs]; exact hp, hpw⟩

theorem loginSync_delete (sid : String) (st : StoreState) (h : loginSync st) :
    loginSync (delete_student sid st) := by
  intro sid0 entry hentry
  by_cases hs : sid0 = sid
  · subst hs
    rw [delete_student] at hentry
    simp only [Function.update_same] at hentry
    exact absurd hentry (by simp)
  · rw [delete_student] at hentry
    simp only [Function.update_noteq hs] at hentry
    obtain ⟨prof, hp, hpw⟩ := h sid0 entry hentry
    exact ⟨prof, by rw [delete_student]; simpa [Function.update_noteq hs] using hp, hpw⟩

theorem rebuildLogins_sync (profiles : String → Option StudentProfile)
    (sid : String) (entry : StudentLogin)
    (h : rebuildLogins profiles sid = some entry) :
    ∃ prof, profiles sid = some prof ∧ prof.password = entry.password := by
  unfold rebuildLogins at h
  cases hp : profiles sid with
  | none => rw [hp] at h; exact absurd h (by simp)
  | some p =>
    rw [hp, Option.some_bind] at h
    cases hpw : p.password with
    | none => rw [hpw] at h; exact absurd h (by simp)
    | some pw =>
      rw [hpw] at h
      injection h with hx
      subst hx
      exact ⟨p, rfl, hpw⟩

theorem startupLogins_sync (profiles : String → Option StudentProfile)
    (sid : String) (entry : StudentLogin)
    (h : startupLogins profiles sid = some entry) :
    ∃ prof, profiles sid = some prof ∧ prof.password = entry.password := by
  unfold startupLogins at h
  cases hp : profiles sid with
  | none => rw [hp] at h; exact absurd h (by simp)
  | some p =>
    rw [hp, Option.some_bind] at h
    cases hpw : p.password with
    | none => rw [hpw] at h; exact absurd h (by simp)
    | some pw =>
      rw [hpw] at h
      dsimp only at h
      by_cases hne : pw ≠ ""
      · rw [if_pos hne] at h
        injection h with hx
        subst hx
        exact ⟨p, rfl, hpw⟩
      · rw [if_neg hne] at h
        exact absurd h (by simp)

theorem loginSync_upload (np : Option (String → Option StudentProfile))
    (st : StoreState) : loginSync (upload_student_data np st) :=
  fun sid entry hentry => rebuildLogins_sync _ sid entry hentry

theorem loginSync_startup (np : Option (String → Option StudentProfile))
    (st : StoreState) : loginSync (startup_load np st) :=
  fun sid entry hentry => startupLogins_sync _ sid entry hentry

theorem loginSync_applyOp (st : StoreState) (op : StoreOp) (h : loginSync st) :
    loginSync (applyOp st op) := by
  cases op with
  | create f => exact loginSync_create f st h
  | update sid f => exact loginSync_update sid f st h
  | delete sid => exact loginSync_delete sid st h
  | upload np => exact loginSync_upload np st
  | startup np => exact loginSync_startup np st

theorem loginSync_init : loginSync initState := by
  intro sid entry h
  exact absurd h (by simp [initState])

/-- C5: in every store reachable from the empty startup store by the
student-data-mutating operations (create, update, delete, student-data
upload, startup load), every login entry's password equals the password field
of the corresponding student profile. -/
theorem C5_theorem (ops : List StoreOp) : loginSync (applyOps ops initState) := by
  suffices h : ∀ st, loginSync st → loginSync (applyOps ops st) from
    h initState loginSync_init
  induction ops with
  | nil => intro st hst; exact hst
  | cons op rest ih =>
    intro st hst
    rw [applyOps, List.foldl_cons]
    exact ih _ (loginSync_applyOp st op hst)

/-- C5 witness: the invariant at a concrete reachable store (a startup load
followed by a create and a delete). -/
theorem C5_theorem_witness :
    loginSync (applyOps
      [StoreOp.startup (some (fun s => if s = "S0"
          then some ⟨"S0", some "pw0", "A", "B", "e", "M", "P", "4.0", "2024", "2000"⟩
          else none)),
       StoreOp.create ⟨some "S1", some "pw", some "pw", some "A", some "B",
         some "e", none, none, none, some "2024", some "2000"⟩,
       StoreOp.delete "S0"] initState) :=
  C5_theorem
    [StoreOp.startup (some (fun s => if s = "S0"
        then some ⟨"S0", some "pw0", "A", "B", "e", "M", "P", "4.0", "2024", "2000"⟩
        else none)),
     StoreOp.create ⟨some "S1", some "pw", some "pw", some "A", some "B",
       some "e", none, none, none, some "2024", some "2000"⟩,
     StoreOp.delete "S0"]

/-- C7 witness: a concrete delete over the empty store with the CSV file
absent. -/
theorem C7_theorem_witness :
    ((delete_student_route "S1" initState false).1.profiles "S1" = none) ∧
    ((delete_student_route "S1" initState false).1.logins "S1" = none) ∧
    ((delete_student_route "S1" initState false).1.gradesMap "S1" = []) ∧
    ((delete_student_route "S1" initState false).1.attMap "S1" = []) ∧
    ((delete_student_route "S1" initState false).1 = delete_student "S1" initState) :=
  C7_theorem "S1" initState false
